import Mathlib

/-!
Verification development for the SmartSched study-priority scheduling engine
(SchedulerService in the repository source: calculateTopicPriority,
getPrioritizedTopics, getUserPreferences, generateSchedule, completeTask,
skipTask, updateDailyStats).

The JavaScript code is shallowly embedded: JS numbers are modelled as
rationals (all quantities involved - scores, hours, minutes - stay exact
rationals under the operations the code performs), timestamps as rationals
(milliseconds), calendar dates as integers (day numbers, with today given by
an environment), SQL tables as Lists of row structures, and thrown database
errors as Except.error.  Math.round is JS rounding (half toward plus
infinity), Math.ceil and Math.floor are the integer ceiling and floor.
Math.random draws are an injected stream of rationals indexed by a counter;
the model consults the stream at every emission, whereas the source's
short-circuited condition skips the Math.random call when an earlier
disjunct already decided the advance - since the stream is arbitrary and
universally quantified, and a skipped draw never influences the decision it
belongs to, both conventions generate exactly the same set of behaviours.
The while loop of generateSchedule is embedded with an explicit fuel
parameter; all theorems about it hold for every fuel value, and concrete
evaluations use fuel large enough that the loop runs to completion.
Database serial ids are not modelled for rows the engine itself inserts
(the inserted id is never read back by any modelled operation); such rows
carry id 0.
-/

namespace SmartSched

/-- JS Math.round: round half toward positive infinity. -/
def jsRound (q : ℚ) : ℤ := Int.floor (q + 1/2)

/-- Difficulty enum of the topics table (easy / medium / hard). -/
inductive Difficulty where
  | easy
  | medium
  | hard
deriving DecidableEq, Repr

/-- Performance aggregate for one topic, as built by getPrioritizedTopics
from the study_sessions GROUP BY query: avg quality scaled to 0-100,
session count, most recent start_time, total actual minutes. -/
structure Perf where
  avg_score : ℚ
  session_count : Nat
  last_studied : Option ℚ
  total_minutes : ℚ
deriving DecidableEq, Repr

/-- The topic fields read by calculateTopicPriority. -/
structure TopicInfo where
  difficulty : Difficulty
  importance : ℤ
  is_completed : Bool
deriving DecidableEq, Repr

/-- The subject fields read by calculateTopicPriority. -/
structure SubjInfo where
  priority_level : ℤ
  exam_date : Option ℚ
deriving DecidableEq, Repr

/-- Difficulty score map of calculateTopicPriority: easy 1, medium 2, hard 3. -/
def difficultyScore : Difficulty → ℚ
  | .easy => 1
  | .medium => 2
  | .hard => 3

/-- Milliseconds per day, the divisor used by the source for day arithmetic. -/
def msPerDay : ℚ := 86400000

/-- Exam urgency term of calculateTopicPriority: for an exam date,
daysRemaining = max(1, ceil((exam - today) / msPerDay)), contribution
min(10, 30 / daysRemaining) * 5, plus a flat 15 when daysRemaining <= 3.
No exam date contributes nothing. -/
def examUrgency (exam : Option ℚ) (todayTs : ℚ) : ℚ :=
  match exam with
  | none => 0
  | some ed =>
    let dr : ℤ := max 1 (Int.ceil ((ed - todayTs) / msPerDay))
    (min 10 ((30 : ℚ) / (dr : ℚ))) * 5 + (if dr ≤ 3 then 15 else 0)

/-- Performance term of calculateTopicPriority.  With session data present
(session_count > 0): +8 below 40, +5 in [40,60), +3 in [60,75), -2 at 90 and
above, else 0.  With no data (or a zero session count): +8. -/
def performanceBoost : Option Perf → ℚ
  | some p =>
    if 0 < p.session_count then
      if p.avg_score < 40 then 8
      else if p.avg_score < 60 then 5
      else if p.avg_score < 75 then 3
      else if 90 ≤ p.avg_score then -2
      else 0
    else 8
  | none => 8

/-- Spaced-repetition term of calculateTopicPriority: applies only when the
performance data carries a last-studied timestamp. -/
def spacedRepBoost (perf : Option Perf) (todayTs : ℚ) : ℚ :=
  match perf with
  | some p =>
    match p.last_studied with
    | some ls =>
      let ds : ℤ := Int.ceil ((todayTs - ls) / msPerDay)
      if 30 ≤ ds then 6 else if 14 ≤ ds then 4
      else if 7 ≤ ds then 2 else if 3 ≤ ds then 1 else 0
    | none => 0
  | none => 0

/-- calculateTopicPriority of the source: the additive score, rounded to two
decimals via Math.round(p * 100) / 100.  The JS falsy-default reads
(subject.priority_level or 3, topic.importance or 3) are modelled by the
zero test, zero being the only falsy value the integer columns admit. -/
def calculateTopicPriority (t : TopicInfo) (s : SubjInfo) (perf : Option Perf)
    (todayTs : ℚ) : ℚ :=
  let raw : ℚ :=
    ((if s.priority_level = 0 then 3 else s.priority_level : ℤ) : ℚ) * 3
    + difficultyScore t.difficulty * 2
    + examUrgency s.exam_date todayTs
    + ((if t.importance = 0 then 3 else t.importance : ℤ) : ℚ) * 2
    + performanceBoost perf
    + (if t.is_completed then -15 else 0)
    + spacedRepBoost perf todayTs
  ((jsRound (raw * 100) : ℚ)) / 100

/-- Row of the subjects table (the columns the scheduler reads). -/
structure SubjectRow where
  id : Nat
  user_id : Nat
  name : String
  priority_level : ℤ
  exam_date : Option ℚ
  is_archived : Bool
deriving DecidableEq, Repr

/-- Row of the topics table (the columns the scheduler reads). -/
structure TopicRow where
  id : Nat
  subject_id : Nat
  name : String
  difficulty : Difficulty
  importance : ℤ
  estimated_hours : ℚ
  is_completed : Bool
  updated_at : ℚ
deriving DecidableEq, Repr

/-- Row of the study_sessions table (the columns the scheduler reads). -/
structure SessionRow where
  user_id : Nat
  topic_id : Option Nat
  quality_rating : ℚ
  actual_minutes : ℚ
  start_time : ℚ
  status : String
deriving DecidableEq, Repr

/-- Row of the tasks table (the columns the scheduler reads or writes). -/
structure TaskRow where
  id : Nat
  user_id : Nat
  topic_id : Option Nat
  title : String
  description : String
  task_type : String
  scheduled_date : ℤ
  estimated_minutes : ℚ
  priority : ℤ
  priority_score : ℚ
  status : String
deriving DecidableEq, Repr

/-- Row of the users table (the columns the scheduler reads). -/
structure UserRow where
  id : Nat
  daily_study_hours : ℚ
deriving DecidableEq, Repr

/-- Row of the progress_logs table as written by completeTask. -/
structure ProgressRow where
  user_id : Nat
  task_id : Nat
  topic_id : Nat
  completion_percentage : ℚ
  notes : String
deriving DecidableEq, Repr

/-- Row of the daily_stats table as upserted by updateDailyStats. -/
structure DailyStatRow where
  user_id : Nat
  stat_date : ℤ
  study_minutes : ℚ
  sessions_count : Nat
  tasks_planned : Nat
  tasks_completed : Nat
deriving DecidableEq, Repr

/-- The database state visible to the scheduler. -/
structure DB where
  subjects : List SubjectRow
  topics : List TopicRow
  sessions : List SessionRow
  users : List UserRow
  tasks : List TaskRow
  progress : List ProgressRow
  stats : List DailyStatRow
deriving DecidableEq, Repr

/-- The clock: CURRENT_TIMESTAMP as milliseconds and CURRENT_DATE as a day
number. -/
structure Env where
  todayTs : ℚ
  todayDay : ℤ
deriving DecidableEq, Repr

/-- Stable insertion of x (originally earlier than every element of the
list): skip every y that strictly precedes x, and place x before the first
y that does not - so x stays before every element it ties with. -/
def insStable (lt : α → α → Bool) (x : α) : List α → List α
  | [] => [x]
  | y :: ys => if lt y x then y :: insStable lt x ys else x :: y :: ys

/-- Stable sort (models both the deterministic SQL ORDER BY ordering and the
stable JS Array.sort). -/
def sortStable (lt : α → α → Bool) : List α → List α
  | [] => []
  | x :: xs => insStable lt x (sortStable lt xs)

/-- Performance aggregation of getPrioritizedTopics: one GROUP BY pass over
the learner's completed, topic-linked study sessions.  avg quality is scaled
by 20 to a 0-100 range, last_studied is MAX(start_time), total_minutes is
SUM(actual_minutes). -/
def perfFor (db : DB) (uid tid : Nat) : Option Perf :=
  match db.sessions.filter
      (fun s => s.user_id == uid && s.topic_id == some tid && s.status == "completed") with
  | [] => none
  | s0 :: rest =>
    let ss := s0 :: rest
    some { avg_score := (ss.map (fun s => s.quality_rating)).sum / (ss.length : ℚ) * 20,
           session_count := ss.length,
           last_studied := some ((rest.map (fun s => s.start_time)).foldl max s0.start_time),
           total_minutes := (ss.map (fun s => s.actual_minutes)).sum }

/-- One row of the topics-join-subjects query. -/
structure JoinRow where
  t : TopicRow
  subj_priority : ℤ
  exam_date : Option ℚ
  subject_name : String
deriving DecidableEq, Repr

/-- The eligible-topic query of getPrioritizedTopics: topics joined to their
subject (unique id), restricted to the learner, non-archived subjects and
incomplete topics. -/
def eligibleRows (db : DB) (uid : Nat) : List JoinRow :=
  db.topics.filterMap (fun t =>
    match db.subjects.find? (fun s => s.id == t.subject_id) with
    | some s =>
      if s.user_id == uid && !s.is_archived && !t.is_completed then
        some { t := t, subj_priority := s.priority_level,
               exam_date := s.exam_date, subject_name := s.name }
      else none
    | none => none)

/-- ORDER BY s.priority_level DESC, t.importance DESC. -/
def rankFetchLt (a b : JoinRow) : Bool :=
  decide (b.subj_priority < a.subj_priority) ||
    (a.subj_priority == b.subj_priority && decide (b.t.importance < a.t.importance))

/-- Prioritized topic: a topic annotated with the derived scheduling
fields, as built by getPrioritizedTopics (is_revision false) or by the
revision fallback of generateSchedule (is_revision true). -/
structure PTopic where
  id : Nat
  name : String
  subject_name : String
  estimated_hours : ℚ
  is_completed : Bool
  priority_score : ℚ
  remaining_hours : ℚ
  is_revision : Bool
deriving DecidableEq, Repr

/-- Annotation step of getPrioritizedTopics: score via the priority formula
and remaining_hours = max(0, (estimated_hours or 1) - total_minutes / 60). -/
def toPTopic (db : DB) (uid : Nat) (env : Env) (j : JoinRow) : PTopic :=
  let perf := perfFor db uid j.t.id
  { id := j.t.id, name := j.t.name, subject_name := j.subject_name,
    estimated_hours := j.t.estimated_hours, is_completed := j.t.is_completed,
    priority_score := calculateTopicPriority
      { difficulty := j.t.difficulty, importance := j.t.importance,
        is_completed := j.t.is_completed }
      { priority_level := j.subj_priority, exam_date := j.exam_date }
      perf env.todayTs,
    remaining_hours :=
      max 0 ((if j.t.estimated_hours = 0 then 1 else j.t.estimated_hours)
        - ((perf.map (fun p => p.total_minutes)).getD 0) / 60),
    is_revision := false }

/-- getPrioritizedTopics of the source: fetch eligible rows in SQL order,
annotate, then stable-sort descending by priority score (JS stable sort with
comparator b.score - a.score). -/
def getPrioritizedTopics (db : DB) (uid : Nat) (env : Env) : List PTopic :=
  sortStable (fun a b => decide (b.priority_score < a.priority_score))
    ((sortStable rankFetchLt (eligibleRows db uid)).map (toPTopic db uid env))

/-- getUserPreferences: the daily_study_hours of the learner, with the
whole-row default 4 when the user row is absent. -/
def dshOf (db : DB) (uid : Nat) : ℚ :=
  ((db.users.find? (fun u => u.id == uid)).map (fun u => u.daily_study_hours)).getD 4

/-- Capacity resolution of generateSchedule:
min(480, max(30, (daily_study_hours or 4) * 60)).  The falsy default fires
exactly at a zero preference. -/
def resolveDailyMinutes (dsh : ℚ) : ℚ :=
  min (max 30 ((if dsh = 0 then 4 else dsh) * 60)) 480

/-- Revision fallback query of generateSchedule: every topic of the
learner under a non-archived subject, ordered by updated_at ascending,
limited to 10, each forced to priority_score 20, remaining_hours 0.5 and
is_revision true. -/
def revisionPool (db : DB) (uid : Nat) : List PTopic :=
  let rows : List JoinRow := db.topics.filterMap (fun t =>
    match db.subjects.find? (fun s => s.id == t.subject_id) with
    | some s =>
      if s.user_id == uid && !s.is_archived then
        some { t := t, subj_priority := s.priority_level,
               exam_date := s.exam_date, subject_name := s.name }
      else none
    | none => none)
  ((sortStable (fun a b => decide (a.t.updated_at < b.t.updated_at)) rows).take 10).map
    (fun j =>
      { id := j.t.id, name := j.t.name, subject_name := j.subject_name,
        estimated_hours := j.t.estimated_hours, is_completed := j.t.is_completed,
        priority_score := 20, remaining_hours := 1/2, is_revision := true })

/-- The failure message of generateSchedule when the learner has a
non-archived subject but the ranked pool is empty. -/
def msgNoTopics : String :=
  "No topics available for scheduling. Add topics to your subjects first."

/-- The failure message of generateSchedule when the learner has no
non-archived subject at all. -/
def msgNoSubjects : String :=
  "No subjects found. Please add subjects and topics first before generating a schedule."

/-- The failure message of generateSchedule when even the revision pool is
empty. -/
def msgAllCompleted : String :=
  "All topics completed! Add new subjects and topics or mark topics as incomplete for revision."

/-- The failure message of generateSchedule when no task was produced. -/
def msgNoneGenerated : String :=
  "Could not generate any tasks. Please check your topics have estimated hours set."

/-- Topic-pool resolution of generateSchedule (its early-return structure):
an empty ranked pool fails with the no-topics or no-subjects message; a
nonempty ranked pool containing no incomplete entry falls to the revision
pool, failing with the all-completed message when that too is empty. -/
def resolvePool (db : DB) (uid : Nat) (env : Env) : String ⊕ List PTopic :=
  let pool := getPrioritizedTopics db uid env
  if pool.isEmpty then
    if 0 < (db.subjects.filter (fun s => s.user_id == uid && !s.is_archived)).length then
      Sum.inl msgNoTopics
    else
      Sum.inl msgNoSubjects
  else
    if (pool.filter (fun t => !t.is_completed)).isEmpty then
      let rev := revisionPool db uid
      if rev.isEmpty then Sum.inl msgAllCompleted else Sum.inr rev
    else
      Sum.inr pool

/-- Sum of estimated_minutes over a list of task rows. -/
def sumMinutes (l : List TaskRow) : ℚ := (l.map (fun r => r.estimated_minutes)).sum

/-- The existing-commitment query of generateSchedule for one date:
SUM(estimated_minutes) over the learner's tasks on that date whose status is
not completed. -/
def committedOn (tasks : List TaskRow) (uid : Nat) (d : ℤ) : ℚ :=
  sumMinutes (tasks.filter
    (fun r => r.user_id == uid && r.scheduled_date == d && r.status != "completed"))

/-- Purge predicate of generateSchedule, as a keep condition: a row is
deleted when it is the learner's own pending, future-dated, study task. -/
def purgeKeep (uid : Nat) (todayDay : ℤ) (r : TaskRow) : Bool :=
  !(r.user_id == uid && decide (todayDay < r.scheduled_date) &&
    r.status == "pending" && r.task_type == "study")

/-- The purge of generateSchedule: DELETE the learner's pending future
auto-generated study tasks. -/
def purgeTasks (tasks : List TaskRow) (uid : Nat) (todayDay : ℤ) : List TaskRow :=
  tasks.filter (purgeKeep uid todayDay)

/-- The task row generateSchedule inserts for one study session. -/
def mkStudyTask (uid : Nat) (t : PTopic) (dateD : ℤ) (sess : ℚ) : TaskRow :=
  { id := 0, user_id := uid, topic_id := some t.id,
    title := "Study: " ++ t.name,
    description := "Auto-generated study session for " ++ t.subject_name ++ " - " ++ t.name,
    task_type := "study", scheduled_date := dateD, estimated_minutes := sess,
    priority := min 5 (Int.ceil (t.priority_score / 10)),
    priority_score := t.priority_score, status := "pending" }

/-- Exhausted-topic skip test of the inner loop: not a revision topic and
remaining_hours at or below zero. -/
def skipExhausted (t : PTopic) : Bool :=
  !t.is_revision && decide (t.remaining_hours ≤ 0)

/-- Session length of the inner loop:
max(25, round(min(desired, 60, remaining) / 5) * 5), where desired is 30
for a revision topic and remaining_hours * 60 otherwise. -/
def sessLen (t : PTopic) (rem : ℚ) : ℚ :=
  max 25 ((jsRound
    ((min (min (if t.is_revision then (30 : ℚ) else t.remaining_hours * 60) 60) rem) / 5) : ℚ) * 5)

/-- Topic budget after an emission: unchanged for a revision topic,
decremented by sess / 60 otherwise. -/
def rhAfterOf (t : PTopic) (sess : ℚ) : ℚ :=
  if t.is_revision then t.remaining_hours else t.remaining_hours - sess / 60

/-- Cursor-advance decision taken after an emission: topic exhausted, or
already two tasks added to the day, or the random draw exceeds 0.6. -/
def advanceRule (rh : ℚ) (added1 : Nat) (draw : ℚ) : Bool :=
  decide (rh ≤ 0) || decide (2 ≤ added1) || decide ((3 : ℚ)/5 < draw)

/-- Ghost record of one emission of the inner allocation loop: the topic,
its remaining hours after the decrement, the count of tasks added to the
day so far (this one included), the count of tasks for this same topic
placed today (this one included), the random draw, and whether the cursor
advanced. -/
structure EmitLog where
  topicId : Nat
  rhAfter : ℚ
  addedAfter : Nat
  perTopicToday : Nat
  draw : ℚ
  advanced : Bool
deriving DecidableEq, Repr

/-- Ghost record of one processed day: its offset, the committed minutes
the code queried when the day was processed, and the sum of
estimated_minutes of the tasks the run placed on it. -/
structure DayLog where
  offset : Nat
  committed : ℚ
  placed : ℚ
deriving DecidableEq, Repr

/-- Mutable state of the generation loop: the task table being appended to,
the generated tasks, the topic pool (whose remaining_hours the loop
mutates), the shared topic cursor, the cycle counter, the random-draw index
and the two ghost logs. -/
structure LoopState where
  tasks : List TaskRow
  gen : List TaskRow
  pool : List PTopic
  cursor : Nat
  cycle : Nat
  rix : Nat
  emitLog : List EmitLog
  dayLog : List DayLog
deriving Repr

/-- Result of the inner allocation loop of one day: remaining minutes, the
tasks emitted for the day, and the updated state. -/
structure AOut where
  remaining : ℚ
  dayEm : List TaskRow
  st : LoopState
deriving Repr

/-- Cursor advance of the inner loop when a topic is skipped. -/
def bumpCursor (st : LoopState) : LoopState := { st with cursor := st.cursor + 1 }

/-- Ghost log entry built at an emission. -/
def emitEntry (t : PTopic) (sess : ℚ) (added1 perTopic : Nat) (draw : ℚ) : EmitLog :=
  { topicId := t.id, rhAfter := rhAfterOf t sess, addedAfter := added1,
    perTopicToday := perTopic, draw := draw,
    advanced := advanceRule (rhAfterOf t sess) added1 draw }

/-- State update of the inner loop at an emission: insert the task, record
it, decrement the topic budget in the pool, advance the cursor when the
advance rule fires, and consume one random draw. -/
def emitState (uid : Nat) (dateD : ℤ) (t : PTopic) (sess draw : ℚ)
    (added1 perTopic : Nat) (st : LoopState) : LoopState :=
  let task := mkStudyTask uid t dateD sess
  { st with
    tasks := st.tasks ++ [task],
    gen := st.gen ++ [task],
    pool := if t.is_revision then st.pool
      else st.pool.set st.cursor { t with remaining_hours := rhAfterOf t sess },
    cursor := if advanceRule (rhAfterOf t sess) added1 draw then st.cursor + 1 else st.cursor,
    rix := st.rix + 1,
    emitLog := st.emitLog ++ [emitEntry t sess added1 perTopic draw] }

/-- Inner allocation loop of generateSchedule for one day, embedded with
fuel: while remainingMinutes >= 25 and the cursor is inside the pool, skip
exhausted non-revision topics, compute the session length, skip the topic
when the rounded length exceeds the remaining minutes, otherwise insert
the task, decrement remaining minutes and the topic budget, and advance
the cursor when the advance rule fires. -/
def allocDay (uid : Nat) (dateD : ℤ) (rng : Nat → ℚ) :
    Nat → ℚ → Nat → List TaskRow → LoopState → AOut
  | 0, rem, _, dayEm, st => { remaining := rem, dayEm := dayEm, st := st }
  | fuel + 1, rem, added, dayEm, st =>
    if rem < 25 then { remaining := rem, dayEm := dayEm, st := st }
    else
      match st.pool[st.cursor]? with
      | none => { remaining := rem, dayEm := dayEm, st := st }
      | some t =>
        if skipExhausted t then
          allocDay uid dateD rng fuel rem added dayEm (bumpCursor st)
        else
          if rem < sessLen t rem then
            allocDay uid dateD rng fuel rem added dayEm (bumpCursor st)
          else
            allocDay uid dateD rng fuel (rem - sessLen t rem) (added + 1)
              (dayEm ++ [mkStudyTask uid t dateD (sessLen t rem)])
              (emitState uid dateD t (sessLen t rem) (rng st.rix) (added + 1)
                ((dayEm.filter (fun r => r.topic_id == some t.id)).length + 1) st)

/-- Cycle replenishment of generateSchedule: when the cursor wraps, every
non-revision topic gets remaining_hours =
max((estimated_hours or 1) * 0.3, remaining_hours). -/
def replenish (t : PTopic) : PTopic :=
  if t.is_revision then t
  else
    let oh : ℚ := if t.estimated_hours = 0 then 1 else t.estimated_hours
    { t with remaining_hours := max (oh * (3/10)) t.remaining_hours }

/-- End-of-day wrap of generateSchedule: when the cursor has reached the
end of the pool and fewer than 3 cycles were used, reset the cursor,
count the cycle and replenish the pool. -/
def wrapCycle (st2 : LoopState) : LoopState :=
  if decide (st2.pool.length ≤ st2.cursor) && decide (st2.cycle < 3) then
    { st2 with cursor := 0, cycle := st2.cycle + 1, pool := st2.pool.map replenish }
  else st2

/-- Day-log append at the end of a processed day (ghost bookkeeping). -/
def pushDayLog (st : LoopState) (off : Nat) (committed placed : ℚ) : LoopState :=
  { st with dayLog := st.dayLog ++ [{ offset := off, committed := committed, placed := placed }] }

/-- Per-day loop of generateSchedule over the day offsets: query the
committed minutes of the date, skip the day (wrap check included) when
fewer than 25 minutes remain, otherwise run the inner allocation loop and
then wrap the cursor (at most 3 times), replenishing topic budgets. -/
def dayLoop (uid : Nat) (rng : Nat → ℚ) (todayDay : ℤ) (dailyM : ℚ) (fuel : Nat) :
    List Nat → LoopState → LoopState
  | [], st => st
  | off :: rest, st =>
    let dateD := todayDay + (off : ℤ)
    let committed := committedOn st.tasks uid dateD
    let rem0 := dailyM - committed
    if rem0 < 25 then
      dayLoop uid rng todayDay dailyM fuel rest (pushDayLog st off committed 0)
    else
      let a := allocDay uid dateD rng fuel rem0 0 [] st
      dayLoop uid rng todayDay dailyM fuel rest
        (wrapCycle (pushDayLog a.st off committed (sumMinutes a.dayEm)))

/-- Result value of generateSchedule. -/
inductive GenResult where
  | failure (message : String)
  | success (message : String) (tasks : List TaskRow) (tasksCount : Nat)
deriving DecidableEq, Repr

/-- Full outcome of one generateSchedule call: the returned result, the
final task table, the inserted tasks, the resolved capacity and the two
ghost logs. -/
structure GenOutcome where
  result : GenResult
  finalTasks : List TaskRow
  gen : List TaskRow
  dailyMinutes : ℚ
  emitLog : List EmitLog
  dayLog : List DayLog
deriving Repr

/-- Loop state at the start of the day loop: the purged task table, the
resolved pool, and everything else zeroed. -/
def initState (db : DB) (uid : Nat) (env : Env) (pool : List PTopic) : LoopState :=
  { tasks := purgeTasks db.tasks uid env.todayDay, gen := [], pool := pool,
    cursor := 0, cycle := 0, rix := 0, emitLog := [], dayLog := [] }

/-- The purge followed by the whole day loop of generateSchedule. -/
def runDays (db : DB) (uid : Nat) (days : Nat) (rng : Nat → ℚ) (env : Env)
    (fuel : Nat) (pool : List PTopic) : LoopState :=
  dayLoop uid rng env.todayDay (resolveDailyMinutes (dshOf db uid)) fuel
    (List.range days) (initState db uid env pool)

/-- generateSchedule of the source: resolve capacity and pool, purge stale
future auto-tasks, run the per-day allocation loop, and report failure when
nothing was generated. -/
def generateSchedule (db : DB) (uid : Nat) (days : Nat) (rng : Nat → ℚ)
    (env : Env) (fuel : Nat) : GenOutcome :=
  let dailyM := resolveDailyMinutes (dshOf db uid)
  match resolvePool db uid env with
  | Sum.inl m =>
    { result := .failure m, finalTasks := db.tasks, gen := [],
      dailyMinutes := dailyM, emitLog := [], dayLog := [] }
  | Sum.inr pool =>
    let st := runDays db uid days rng env fuel pool
    if st.gen.isEmpty then
      { result := .failure msgNoneGenerated, finalTasks := st.tasks, gen := st.gen,
        dailyMinutes := dailyM, emitLog := st.emitLog, dayLog := st.dayLog }
    else
      { result := .success
          ("Generated " ++ toString st.gen.length ++ " study tasks for the next "
            ++ toString days ++ " days") st.gen st.gen.length,
        finalTasks := st.tasks, gen := st.gen,
        dailyMinutes := dailyM, emitLog := st.emitLog, dayLog := st.dayLog }

/-- Structured result returned by completeTask and skipTask. -/
structure OpResult where
  success : Bool
  message : String
deriving DecidableEq, Repr

/-- updateDailyStats of the source: recompute the day rollup for today and
upsert it; any internal failure (the ok flag) is caught, logged and
swallowed, leaving the database unchanged. -/
def updateDailyStats (db : DB) (uid : Nat) (env : Env) (ok : Bool) : DB :=
  if !ok then db
  else
    let sms := db.sessions.filter (fun s =>
      s.user_id == uid && decide (Int.floor (s.start_time / msPerDay) = env.todayDay)
        && s.status == "completed")
    let row : DailyStatRow :=
      { user_id := uid, stat_date := env.todayDay,
        study_minutes := (sms.map (fun s => s.actual_minutes)).sum,
        sessions_count := sms.length,
        tasks_planned := (db.tasks.filter (fun r =>
          r.user_id == uid && r.scheduled_date == env.todayDay)).length,
        tasks_completed := (db.tasks.filter (fun r =>
          r.user_id == uid && r.scheduled_date == env.todayDay
            && r.status == "completed")).length }
    if db.stats.any (fun r => r.user_id == uid && r.stat_date == env.todayDay) then
      { db with stats := db.stats.map (fun r =>
          if r.user_id == uid && r.stat_date == env.todayDay then row else r) }
    else
      { db with stats := db.stats ++ [row] }

/-- completeTask of the source: verify ownership (a plain lookup, no topic
join), set the status to completed, and when the task references a topic
insert a 100 percent progress record.  The progress insert is awaited
inside the same try block as the rest, so its failure (the progressOk
flag) reaches the catch, which rethrows; a daily-stats failure (the
statsOk flag) is swallowed inside updateDailyStats. -/
def completeTask (db : DB) (uid tid : Nat) (progressOk statsOk : Bool)
    (env : Env) : Except String (OpResult × DB) :=
  match db.tasks.find? (fun r => r.id == tid && r.user_id == uid) with
  | none => .ok ({ success := false, message := "Task not found" }, db)
  | some task =>
    let db1 : DB := { db with tasks := db.tasks.map (fun r =>
      if r.id == tid then { r with status := "completed" } else r) }
    match task.topic_id with
    | some k =>
      if progressOk then
        let db2 : DB := { db1 with progress := db1.progress ++
          [{ user_id := uid, task_id := tid, topic_id := k,
             completion_percentage := 100, notes := "Task completed" }] }
        .ok ({ success := true, message := "Task completed successfully" },
          updateDailyStats db2 uid env statsOk)
      else .error "progress log insert failed"
    | none =>
      .ok ({ success := true, message := "Task completed successfully" },
        updateDailyStats db1 uid env statsOk)

/-- Next-available-date query of skipTask: the first date within 14 days of
tomorrow on which the learner either has no tasks at all or their
estimated-minutes sum is below 240, defaulting to tomorrow. -/
def nextFreeDate (tasks : List TaskRow) (uid : Nat) (todayDay : ℤ) : ℤ :=
  ((((List.range 14).map (fun i => todayDay + 1 + (i : ℤ))).find? (fun d =>
    let dayTasks := tasks.filter (fun r => r.user_id == uid && r.scheduled_date == d)
    !(decide (0 < dayTasks.length) && decide ((240 : ℚ) ≤ sumMinutes dayTasks)))).getD
    (todayDay + 1))

/-- skipTask of the source: the ownership lookup joins the topics table (so
a task without a topic, or with a dangling topic reference, is reported as
not found), the task is marked skipped, and a clone with the
"[Rescheduled] " title prefix, priority min(5, (priority or 3) + 1) and
priority_score (priority_score or 0) + 5 is inserted on the next available
date. -/
def skipTask (db : DB) (uid tid : Nat) (reason : String) (env : Env) :
    Except String (OpResult × DB) :=
  match db.tasks.find? (fun r => r.id == tid && r.user_id == uid) with
  | none => .ok ({ success := false, message := "Task not found" }, db)
  | some task =>
    match task.topic_id with
    | none => .ok ({ success := false, message := "Task not found" }, db)
    | some k =>
      if (db.topics.find? (fun t => t.id == k)).isSome then
        let tasks1 := db.tasks.map (fun r =>
          if r.id == tid then { r with status := "skipped" } else r)
        let nd := nextFreeDate tasks1 uid env.todayDay
        let newTask : TaskRow :=
          { id := 0, user_id := uid, topic_id := task.topic_id,
            title := "[Rescheduled] " ++ task.title,
            description := "Rescheduled from " ++ toString task.scheduled_date ++ ". "
              ++ (if reason == "" then "" else "Reason: " ++ reason),
            task_type := task.task_type, scheduled_date := nd,
            estimated_minutes := task.estimated_minutes,
            priority := min 5 ((if task.priority = 0 then 3 else task.priority) + 1),
            priority_score := (if task.priority_score = 0 then 0 else task.priority_score) + 5,
            status := "pending" }
        .ok ({ success := true,
               message := "Task skipped and rescheduled to " ++ toString nd },
          { db with tasks := tasks1 ++ [newTask] })
      else .ok ({ success := false, message := "Task not found" }, db)

theorem sumMinutes_append (a b : List TaskRow) :
    sumMinutes (a ++ b) = sumMinutes a + sumMinutes b := by
  simp [sumMinutes]

theorem allocDay_tasks (uid : Nat) (dateD : ℤ) (rng : Nat → ℚ) :
    ∀ (fuel : Nat) (rem : ℚ) (added : Nat) (dayEm : List TaskRow) (st : LoopState),
    ∃ δ : List TaskRow,
      (allocDay uid dateD rng fuel rem added dayEm st).st.tasks = st.tasks ++ δ ∧
      (allocDay uid dateD rng fuel rem added dayEm st).st.gen = st.gen ++ δ ∧
      (allocDay uid dateD rng fuel rem added dayEm st).dayEm = dayEm ++ δ ∧
      ∀ r ∈ δ, r.user_id = uid ∧ r.status = "pending" ∧ r.task_type = "study" ∧
        r.scheduled_date = dateD := by
  intro fuel
  induction fuel with
  | zero =>
    intro rem added dayEm st
    exact ⟨[], by simp [allocDay], by simp [allocDay], by simp [allocDay], by simp⟩
  | succ n ih =>
    intro rem added dayEm st
    rw [allocDay]
    split
    · exact ⟨[], by simp, by simp, by simp, by simp⟩
    · split
      · exact ⟨[], by simp, by simp, by simp, by simp⟩
      · rename_i t ht
        split
        · exact ih rem added dayEm (bumpCursor st)
        · split
          · exact ih rem added dayEm (bumpCursor st)
          · obtain ⟨δ, h1, h2, h3, h4⟩ := ih (rem - sessLen t rem) (added + 1)
              (dayEm ++ [mkStudyTask uid t dateD (sessLen t rem)])
              (emitState uid dateD t (sessLen t rem) (rng st.rix) (added + 1)
                ((dayEm.filter (fun r => r.topic_id == some t.id)).length + 1) st)
            refine ⟨mkStudyTask uid t dateD (sessLen t rem) :: δ, ?_, ?_, ?_, ?_⟩
            · rw [h1]; simp [emitState]
            · rw [h2]; simp [emitState]
            · rw [h3]; simp
            · intro r hr
              rcases List.mem_cons.mp hr with hr | hr
              · subst hr; exact ⟨rfl, rfl, rfl, rfl⟩
              · exact h4 r hr

theorem allocDay_budget (uid : Nat) (dateD : ℤ) (rng : Nat → ℚ) :
    ∀ (fuel : Nat) (rem : ℚ) (added : Nat) (dayEm : List TaskRow) (st : LoopState),
    sumMinutes (allocDay uid dateD rng fuel rem added dayEm st).dayEm
        + (allocDay uid dateD rng fuel rem added dayEm st).remaining
      = sumMinutes dayEm + rem ∧
    (0 ≤ rem → 0 ≤ (allocDay uid dateD rng fuel rem added dayEm st).remaining) := by
  intro fuel
  induction fuel with
  | zero => intro rem added dayEm st; exact ⟨rfl, fun h => h⟩
  | succ n ih =>
    intro rem added dayEm st
    rw [allocDay]
    split
    · exact ⟨rfl, fun h => h⟩
    · split
      · exact ⟨rfl, fun h => h⟩
      · rename_i t ht
        split
        · exact ih rem added dayEm (bumpCursor st)
        · split
          · exact ih rem added dayEm (bumpCursor st)
          · rename_i hrem25 hfit
            obtain ⟨h1, h2⟩ := ih (rem - sessLen t rem) (added + 1)
              (dayEm ++ [mkStudyTask uid t dateD (sessLen t rem)])
              (emitState uid dateD t (sessLen t rem) (rng st.rix) (added + 1)
                ((dayEm.filter (fun r => r.topic_id == some t.id)).length + 1) st)
            constructor
            · rw [h1, sumMinutes_append]
              have hone : sumMinutes [mkStudyTask uid t dateD (sessLen t rem)]
                  = sessLen t rem := by
                simp [sumMinutes, mkStudyTask]
              rw [hone]; ring
            · intro _
              apply h2
              have : ¬ rem < sessLen t rem := hfit
              linarith [not_lt.mp this]

theorem allocDay_dayLog (uid : Nat) (dateD : ℤ) (rng : Nat → ℚ) :
    ∀ (fuel : Nat) (rem : ℚ) (added : Nat) (dayEm : List TaskRow) (st : LoopState),
    (allocDay uid dateD rng fuel rem added dayEm st).st.dayLog = st.dayLog := by
  intro fuel
  induction fuel with
  | zero => intro rem added dayEm st; rfl
  | succ n ih =>
    intro rem added dayEm st
    rw [allocDay]
    split
    · rfl
    · split
      · rfl
      · rename_i t ht
        split
        · exact ih rem added dayEm (bumpCursor st)
        · split
          · exact ih rem added dayEm (bumpCursor st)
          · exact ih _ _ _ _

theorem allocDay_emitLog (uid : Nat) (dateD : ℤ) (rng : Nat → ℚ) :
    ∀ (fuel : Nat) (rem : ℚ) (added : Nat) (dayEm : List TaskRow) (st : LoopState),
    ∃ ε : List EmitLog,
      (allocDay uid dateD rng fuel rem added dayEm st).st.emitLog = st.emitLog ++ ε ∧
      ∀ e ∈ ε, e.advanced = advanceRule e.rhAfter e.addedAfter e.draw := by
  intro fuel
  induction fuel with
  | zero => intro rem added dayEm st; exact ⟨[], by simp [allocDay], by simp⟩
  | succ n ih =>
    intro rem added dayEm st
    rw [allocDay]
    split
    · exact ⟨[], by simp, by simp⟩
    · split
      · exact ⟨[], by simp, by simp⟩
      · rename_i t ht
        split
        · exact ih rem added dayEm (bumpCursor st)
        · split
          · exact ih rem added dayEm (bumpCursor st)
          · obtain ⟨ε, h1, h2⟩ := ih (rem - sessLen t rem) (added + 1)
              (dayEm ++ [mkStudyTask uid t dateD (sessLen t rem)])
              (emitState uid dateD t (sessLen t rem) (rng st.rix) (added + 1)
                ((dayEm.filter (fun r => r.topic_id == some t.id)).length + 1) st)
            refine ⟨emitEntry t (sessLen t rem) (added + 1)
              ((dayEm.filter (fun r => r.topic_id == some t.id)).length + 1)
              (rng st.rix) :: ε, ?_, ?_⟩
            · rw [h1]; simp [emitState]
            · intro e he
              rcases List.mem_cons.mp he with he | he
              · subst he; simp [emitEntry]
              · exact h2 e he

theorem wrapCycle_tasks (s2 : LoopState) : (wrapCycle s2).tasks = s2.tasks := by
  rw [wrapCycle]; split <;> rfl

theorem wrapCycle_gen (s2 : LoopState) : (wrapCycle s2).gen = s2.gen := by
  rw [wrapCycle]; split <;> rfl

theorem wrapCycle_dayLog (s2 : LoopState) : (wrapCycle s2).dayLog = s2.dayLog := by
  rw [wrapCycle]; split <;> rfl

theorem wrapCycle_emitLog (s2 : LoopState) : (wrapCycle s2).emitLog = s2.emitLog := by
  rw [wrapCycle]; split <;> rfl

theorem dayLoop_tasks (uid : Nat) (rng : Nat → ℚ) (todayDay : ℤ) (dailyM : ℚ) (fuel : Nat) :
    ∀ (offs : List Nat) (st : LoopState),
    ∃ Δ : List TaskRow,
      (dayLoop uid rng todayDay dailyM fuel offs st).tasks = st.tasks ++ Δ ∧
      (dayLoop uid rng todayDay dailyM fuel offs st).gen = st.gen ++ Δ ∧
      ∀ r ∈ Δ, r.user_id = uid ∧ r.status = "pending" ∧ r.task_type = "study" := by
  intro offs
  induction offs with
  | nil => intro st; exact ⟨[], by simp [dayLoop], by simp [dayLoop], by simp⟩
  | cons off rest ih =>
    intro st
    rw [dayLoop]
    split
    · obtain ⟨Δ, h1, h2, h3⟩ := ih _
      exact ⟨Δ, h1, h2, h3⟩
    · obtain ⟨δ, a1, a2, _, a4⟩ := allocDay_tasks uid (todayDay + (off : ℤ)) rng fuel
        (dailyM - committedOn st.tasks uid (todayDay + (off : ℤ))) 0 [] st
      obtain ⟨Δ, h1, h2, h3⟩ := ih _
      refine ⟨δ ++ Δ, ?_, ?_, ?_⟩
      · rw [h1, wrapCycle_tasks]
        show ((allocDay uid (todayDay + (off : ℤ)) rng fuel _ 0 [] st).st.tasks) ++ Δ
          = st.tasks ++ (δ ++ Δ)
        rw [a1, List.append_assoc]
      · rw [h2, wrapCycle_gen]
        show ((allocDay uid (todayDay + (off : ℤ)) rng fuel _ 0 [] st).st.gen) ++ Δ
          = st.gen ++ (δ ++ Δ)
        rw [a2, List.append_assoc]
      · intro r hr
        rcases List.mem_append.mp hr with hr | hr
        · obtain ⟨hu, hs, hty, _⟩ := a4 r hr
          exact ⟨hu, hs, hty⟩
        · exact h3 r hr

theorem dayLoop_capacity (uid : Nat) (rng : Nat → ℚ) (todayDay : ℤ) (dailyM : ℚ) (fuel : Nat) :
    ∀ (offs : List Nat) (st : LoopState),
    (∀ e ∈ st.dayLog, e.placed ≤ max (dailyM - e.committed) 0 ∧
      (e.placed ≠ 0 → e.placed ≤ dailyM - e.committed)) →
    ∀ e ∈ (dayLoop uid rng todayDay dailyM fuel offs st).dayLog,
      e.placed ≤ max (dailyM - e.committed) 0 ∧
      (e.placed ≠ 0 → e.placed ≤ dailyM - e.committed) := by
  intro offs
  induction offs with
  | nil => intro st h; simpa [dayLoop] using h
  | cons off rest ih =>
    intro st h
    rw [dayLoop]
    split
    · apply ih
      intro e he
      rw [pushDayLog] at he
      rcases List.mem_append.mp he with he | he
      · exact h e he
      · have he0 : e =
            ⟨off, committedOn st.tasks uid (todayDay + (off : ℤ)), 0⟩ := by
          simpa using he
        subst he0
        refine ⟨le_max_right _ _, ?_⟩
        intro hne
        exact absurd rfl hne
    · rename_i hfit
      refine ih _ ?_
      intro e he
      rw [wrapCycle_dayLog, pushDayLog] at he
      rcases List.mem_append.mp he with he | he
      · rw [allocDay_dayLog] at he
        exact h e he
      · have hrem0 : (0 : ℚ) ≤ dailyM - committedOn st.tasks uid (todayDay + (off : ℤ)) := by
          have h25 := not_lt.mp hfit
          linarith
        obtain ⟨hsum, hpos⟩ := allocDay_budget uid (todayDay + (off : ℤ)) rng fuel
          (dailyM - committedOn st.tasks uid (todayDay + (off : ℤ))) 0 [] st
        have hbound : sumMinutes (allocDay uid (todayDay + (off : ℤ)) rng fuel
            (dailyM - committedOn st.tasks uid (todayDay + (off : ℤ))) 0 [] st).dayEm
            ≤ dailyM - committedOn st.tasks uid (todayDay + (off : ℤ)) := by
          have hrem := hpos hrem0
          have hnil : sumMinutes ([] : List TaskRow) = 0 := rfl
          rw [hnil] at hsum
          linarith
        have he0 : e =
            ⟨off, committedOn st.tasks uid (todayDay + (off : ℤ)),
              sumMinutes (allocDay uid (todayDay + (off : ℤ)) rng fuel
                (dailyM - committedOn st.tasks uid (todayDay + (off : ℤ))) 0 [] st).dayEm⟩ := by
          simpa using he
        subst he0
        exact ⟨le_trans hbound (le_max_left _ _), fun _ => hbound⟩

theorem dayLoop_emitLog (uid : Nat) (rng : Nat → ℚ) (todayDay : ℤ) (dailyM : ℚ) (fuel : Nat) :
    ∀ (offs : List Nat) (st : LoopState),
    (∀ e ∈ st.emitLog, e.advanced = advanceRule e.rhAfter e.addedAfter e.draw) →
    ∀ e ∈ (dayLoop uid rng todayDay dailyM fuel offs st).emitLog,
      e.advanced = advanceRule e.rhAfter e.addedAfter e.draw := by
  intro offs
  induction offs with
  | nil => intro st h; simpa [dayLoop] using h
  | cons off rest ih =>
    intro st h
    rw [dayLoop]
    split
    · apply ih
      intro e he
      rw [pushDayLog] at he
      exact h e he
    · refine ih _ ?_
      intro e he
      rw [wrapCycle_emitLog, pushDayLog] at he
      obtain ⟨ε, h1, h2⟩ := allocDay_emitLog uid (todayDay + (off : ℤ)) rng fuel
        (dailyM - committedOn st.tasks uid (todayDay + (off : ℤ))) 0 [] st
      rw [h1] at he
      rcases List.mem_append.mp he with he | he
      · exact h e he
      · exact h2 e he

theorem generateSchedule_inl (db : DB) (uid days fuel : Nat) (rng : Nat → ℚ)
    (env : Env) (m : String) (hrp : resolvePool db uid env = Sum.inl m) :
    generateSchedule db uid days rng env fuel =
      { result := .failure m, finalTasks := db.tasks, gen := [],
        dailyMinutes := resolveDailyMinutes (dshOf db uid), emitLog := [], dayLog := [] } := by
  rw [generateSchedule, hrp]

theorem generateSchedule_inr_proj (db : DB) (uid days fuel : Nat) (rng : Nat → ℚ)
    (env : Env) (pool : List PTopic) (hrp : resolvePool db uid env = Sum.inr pool) :
    (generateSchedule db uid days rng env fuel).finalTasks
        = (runDays db uid days rng env fuel pool).tasks ∧
      (generateSchedule db uid days rng env fuel).gen
        = (runDays db uid days rng env fuel pool).gen ∧
      (generateSchedule db uid days rng env fuel).dayLog
        = (runDays db uid days rng env fuel pool).dayLog ∧
      (generateSchedule db uid days rng env fuel).emitLog
        = (runDays db uid days rng env fuel pool).emitLog ∧
      (generateSchedule db uid days rng env fuel).dailyMinutes
        = resolveDailyMinutes (dshOf db uid) := by
  simp only [generateSchedule, hrp]
  split <;> exact ⟨rfl, rfl, rfl, rfl, rfl⟩

theorem generateSchedule_dailyMinutes (db : DB) (uid days fuel : Nat) (rng : Nat → ℚ)
    (env : Env) :
    (generateSchedule db uid days rng env fuel).dailyMinutes
      = resolveDailyMinutes (dshOf db uid) := by
  rcases hrp : resolvePool db uid env with m | pool
  · rw [generateSchedule_inl db uid days fuel rng env m hrp]
  · exact (generateSchedule_inr_proj db uid days fuel rng env pool hrp).2.2.2.2

end SmartSched

namespace SmartSched

deriving instance DecidableEq for Except

def rngZero : Nat → ℚ := fun _ => 0

def envZero : Env := { todayTs := 0, todayDay := 0 }

def cdb1 : DB :=
  { subjects := [
      { id := 1, user_id := 1, name := "S", priority_level := 3,
        exam_date := none, is_archived := false }],
    topics := [
      { id := 1, subject_id := 1, name := "T", difficulty := .medium,
        importance := 3, estimated_hours := 2, is_completed := true, updated_at := 0 }],
    sessions := [], users := [], tasks := [], progress := [], stats := [] }

unseal Rat.mul Rat.add Rat.sub Rat.inv in
/-- Claim C1 (code bug): a learner whose every topic is completed, with the
topic sitting under a non-archived subject, does NOT receive the revision
fallback the code documents: getPrioritizedTopics filters completed topics
out in SQL, so the pool is empty and generateSchedule takes the
"no topics available" early return before the (unreachable, see
revision_fallback_unreachable) all-completed branch.  Evaluated at the
failing input cdb1. -/
theorem all_topics_completed_yields_pool_empty_failure :
    (generateSchedule cdb1 1 7 rngZero envZero 100).result = .failure msgNoTopics ∧
    (generateSchedule cdb1 1 7 rngZero envZero 100).finalTasks = cdb1.tasks ∧
    (generateSchedule cdb1 1 7 rngZero envZero 100).gen = [] := by decide

def cdb4 : DB :=
  { subjects := [
      { id := 1, user_id := 1, name := "S", priority_level := 3,
        exam_date := none, is_archived := false }],
    topics := [
      { id := 1, subject_id := 1, name := "T", difficulty := .medium,
        importance := 3, estimated_hours := 4, is_completed := false, updated_at := 0 }],
    sessions := [], users := [{ id := 1, daily_study_hours := 0 }],
    tasks := [], progress := [], stats := [] }

unseal Rat.mul Rat.add Rat.sub Rat.inv in
/-- Claim C4 (code bug): with daily_study_hours = 0 the code resolves the
per-day capacity to 240 minutes, not the 30 its own comments promise: zero
is falsy, so the (dsh or 4) default fires before the 30-minute floor.  On
the failing input cdb4 a single day receives two 60-minute sessions, not
one 25-30 minute session. -/
theorem zero_daily_hours_resolves_to_240 :
    resolveDailyMinutes 0 = 240 ∧ (240 : ℚ) ≠ 30 ∧
    (generateSchedule cdb4 1 1 rngZero envZero 100).dailyMinutes = 240 ∧
    (generateSchedule cdb4 1 1 rngZero envZero 100).gen.map
      (fun r => (r.scheduled_date, r.estimated_minutes)) = [(0, 60), (0, 60)] := by decide

def claimAdvance (e : EmitLog) : Bool :=
  decide (e.rhAfter ≤ 0) || decide (2 ≤ e.perTopicToday) || decide ((3 : ℚ)/5 < e.draw)

def rngC2 : Nat → ℚ := fun i => if i = 0 then 7/10 else 0

def cdb2 : DB :=
  { subjects := [
      { id := 1, user_id := 1, name := "S", priority_level := 3,
        exam_date := none, is_archived := false }],
    topics := [
      { id := 1, subject_id := 1, name := "A", difficulty := .medium,
        importance := 3, estimated_hours := 2, is_completed := false, updated_at := 0 },
      { id := 2, subject_id := 1, name := "B", difficulty := .medium,
        importance := 3, estimated_hours := 2, is_completed := false, updated_at := 0 }],
    sessions := [], users := [{ id := 1, daily_study_hours := 4 }],
    tasks := [], progress := [], stats := [] }

unseal Rat.mul Rat.add Rat.sub Rat.inv in
/-- Claim C2, counterexample: in the run on cdb2 (two topics, first draw
0.7, second 0), the second emission is for topic 2 - a different topic than
the first emission - with only one task for topic 2 today
(perTopicToday = 1), remaining hours 1 > 0 and draw 0 <= 0.6, yet the
cursor advanced (advanced = true) while the per-topic reading of the claim
(claimAdvance) says it must not.  Placing two tasks for two different
topics did, by itself, force the cursor to advance. -/
theorem variety_rule_per_topic_reading_fails :
    ((generateSchedule cdb2 1 1 rngC2 envZero 100).emitLog.map
      (fun e => (e.topicId, e.advanced, claimAdvance e)))
      = [(1, true, true), (2, true, false)] := by decide

def cdb6 : DB :=
  { subjects := [
      { id := 1, user_id := 1, name := "S", priority_level := 3,
        exam_date := none, is_archived := false }],
    topics := [
      { id := 1, subject_id := 1, name := "T", difficulty := .medium,
        importance := 3, estimated_hours := 1, is_completed := false, updated_at := 0 }],
    sessions := [], users := [{ id := 1, daily_study_hours := 1/2 }],
    tasks := [], progress := [], stats := [] }

unseal Rat.mul Rat.add Rat.sub Rat.inv in
/-- Claim C6, counterexample: on cdb6 (30-minute capacity, one 1-hour
topic, 2-day horizon, constant draws) the first run places one task today
and one tomorrow; the purge of the second run deletes only the FUTURE task
(scheduled_date > today), the surviving today task consumes all of day 0,
and the second run generates a single task - a different total count and a
different date distribution. -/
theorem regenerate_twice_differs :
    ((generateSchedule cdb6 1 2 rngZero envZero 100).gen.map
      (fun r => r.scheduled_date) = [0, 1]) ∧
    ((generateSchedule { cdb6 with
        tasks := (generateSchedule cdb6 1 2 rngZero envZero 100).finalTasks }
        1 2 rngZero envZero 100).gen.map (fun r => r.scheduled_date) = [1]) ∧
    (generateSchedule { cdb6 with
        tasks := (generateSchedule cdb6 1 2 rngZero envZero 100).finalTasks }
        1 2 rngZero envZero 100).gen.length
      ≠ (generateSchedule cdb6 1 2 rngZero envZero 100).gen.length := by decide

def p50 : Perf :=
  { avg_score := 50, session_count := 1, last_studied := some 0, total_minutes := 30 }

def t5 : TopicInfo := { difficulty := .medium, importance := 3, is_completed := false }

def s5 : SubjInfo := { priority_level := 3, exam_date := none }

unseal Rat.mul Rat.add Rat.sub Rat.inv in
/-- Claim C5, counterexample: a topic with no performance data gets +8 on
the performance term while one with avg_score 50 (inside [40,60)) gets +5,
so with every other input fixed the two scores differ (27 versus 24): the
claim that they are identical is false. -/
theorem never_studied_vs_midband_differ :
    performanceBoost none = 8 ∧ performanceBoost (some p50) = 5 ∧
    calculateTopicPriority t5 s5 none 0 = 27 ∧
    calculateTopicPriority t5 s5 (some p50) 0 = 24 ∧
    calculateTopicPriority t5 s5 none 0 ≠ calculateTopicPriority t5 s5 (some p50) 0 := by
  decide

def cdb9 : DB :=
  { subjects := [
      { id := 1, user_id := 1, name := "S", priority_level := 3,
        exam_date := none, is_archived := false }],
    topics := [
      { id := 1, subject_id := 1, name := "T", difficulty := .medium,
        importance := 3, estimated_hours := 2, is_completed := false, updated_at := 0 }],
    sessions := [], users := [],
    tasks := [
      { id := 1, user_id := 1, topic_id := some 1, title := "T1",
        description := "", task_type := "study", scheduled_date := 0,
        estimated_minutes := 30, priority := 3, priority_score := 10, status := "pending" }],
    progress := [], stats := [] }

unseal Rat.mul Rat.add Rat.sub Rat.inv in
/-- Claim C9, counterexample: on cdb9, after the status update, a failing
progress-record insert makes completeTask return the error (the insert is
awaited inside the same try whose catch rethrows), not the success result
the claim promises. -/
theorem progress_log_failure_fails_completion :
    completeTask cdb9 1 1 false true envZero = .error "progress log insert failed" := by
  decide

end SmartSched

namespace SmartSched

/-- Claim C3: for every run of generateSchedule and every processed day,
the sum of estimated_minutes of the tasks placed on that day (the ghost
dayLog records it together with the committed minutes the code queried
when the day was processed) never exceeds the clamped daily capacity minus
those committed minutes; with an over-committed day nothing is placed
(the max 0 clamp covers the degenerate negative budget, where the placed
sum is 0). -/
theorem day_capacity_never_exceeded (db : DB) (uid days fuel : Nat) (rng : Nat → ℚ)
    (env : Env) (e : DayLog)
    (he : e ∈ (generateSchedule db uid days rng env fuel).dayLog) :
    e.placed ≤ max ((generateSchedule db uid days rng env fuel).dailyMinutes - e.committed) 0 ∧
    (e.placed ≠ 0 →
      e.placed ≤ (generateSchedule db uid days rng env fuel).dailyMinutes - e.committed) := by
  rw [generateSchedule_dailyMinutes]
  rcases hrp : resolvePool db uid env with m | pool
  · rw [generateSchedule_inl db uid days fuel rng env m hrp] at he
    exact absurd he (List.not_mem_nil e)
  · rw [(generateSchedule_inr_proj db uid days fuel rng env pool hrp).2.2.1] at he
    exact dayLoop_capacity uid rng env.todayDay (resolveDailyMinutes (dshOf db uid)) fuel
      (List.range days) (initState db uid env pool)
      (fun e' he' => absurd he' (List.not_mem_nil e')) e he

def cdb3 : DB :=
  { subjects := [
      { id := 1, user_id := 1, name := "S", priority_level := 3,
        exam_date := none, is_archived := false }],
    topics := [
      { id := 1, subject_id := 1, name := "T", difficulty := .medium,
        importance := 3, estimated_hours := 1, is_completed := false, updated_at := 0 }],
    sessions := [], users := [{ id := 1, daily_study_hours := 4 }],
    tasks := [], progress := [], stats := [] }

unseal Rat.mul Rat.add Rat.sub Rat.inv in
/-- Witness for day_capacity_never_exceeded on the one-day run on cdb3. -/
theorem day_capacity_never_exceeded_witness :
    (⟨0, 0, 60⟩ : DayLog) ∈ (generateSchedule cdb3 1 1 rngZero envZero 100).dayLog ∧
    ((⟨0, 0, 60⟩ : DayLog).placed ≤
        max ((generateSchedule cdb3 1 1 rngZero envZero 100).dailyMinutes
          - (⟨0, 0, 60⟩ : DayLog).committed) 0 ∧
      ((⟨0, 0, 60⟩ : DayLog).placed ≠ 0 →
        (⟨0, 0, 60⟩ : DayLog).placed ≤
          (generateSchedule cdb3 1 1 rngZero envZero 100).dailyMinutes
            - (⟨0, 0, 60⟩ : DayLog).committed)) :=
  ⟨by decide, day_capacity_never_exceeded cdb3 1 1 100 rngZero envZero ⟨0, 0, 60⟩ (by decide)⟩

/-- Claim C2 (amended): after a task is emitted the cursor advances exactly
when the topic is now exhausted, or two tasks have already been placed on
the current day FOR ANY TOPICS (tasksAddedThisDay, not a per-topic count),
or the draw exceeds 0.6.  Every emission the generator logs obeys this
rule. -/
theorem advance_rule_counts_all_day_tasks (db : DB) (uid days fuel : Nat) (rng : Nat → ℚ)
    (env : Env) (e : EmitLog)
    (he : e ∈ (generateSchedule db uid days rng env fuel).emitLog) :
    e.advanced = (decide (e.rhAfter ≤ 0) || decide (2 ≤ e.addedAfter)
      || decide ((3 : ℚ)/5 < e.draw)) := by
  rcases hrp : resolvePool db uid env with m | pool
  · rw [generateSchedule_inl db uid days fuel rng env m hrp] at he
    exact absurd he (List.not_mem_nil e)
  · rw [(generateSchedule_inr_proj db uid days fuel rng env pool hrp).2.2.2.1] at he
    have h := dayLoop_emitLog uid rng env.todayDay (resolveDailyMinutes (dshOf db uid)) fuel
      (List.range days) (initState db uid env pool)
      (fun e' he' => absurd he' (List.not_mem_nil e')) e he
    simpa [advanceRule] using h

unseal Rat.mul Rat.add Rat.sub Rat.inv in
/-- Witness for advance_rule_counts_all_day_tasks at the first emission of
the cdb2 run. -/
theorem advance_rule_counts_all_day_tasks_witness :
    (⟨1, 1, 1, 1, 7/10, true⟩ : EmitLog) ∈ (generateSchedule cdb2 1 1 rngC2 envZero 100).emitLog ∧
    (⟨1, 1, 1, 1, 7/10, true⟩ : EmitLog).advanced
      = (decide ((⟨1, 1, 1, 1, 7/10, true⟩ : EmitLog).rhAfter ≤ 0)
        || decide (2 ≤ (⟨1, 1, 1, 1, 7/10, true⟩ : EmitLog).addedAfter)
        || decide ((3 : ℚ)/5 < (⟨1, 1, 1, 1, 7/10, true⟩ : EmitLog).draw)) :=
  ⟨by decide, advance_rule_counts_all_day_tasks cdb2 1 1 100 rngC2 envZero
    ⟨1, 1, 1, 1, 7/10, true⟩ (by decide)⟩

end SmartSched

namespace SmartSched

theorem generateSchedule_inr_eq (db : DB) (uid days fuel : Nat) (rng : Nat → ℚ)
    (env : Env) (pool : List PTopic) (hrp : resolvePool db uid env = Sum.inr pool) :
    generateSchedule db uid days rng env fuel =
      (if (runDays db uid days rng env fuel pool).gen.isEmpty then
        { result := .failure msgNoneGenerated,
          finalTasks := (runDays db uid days rng env fuel pool).tasks,
          gen := (runDays db uid days rng env fuel pool).gen,
          dailyMinutes := resolveDailyMinutes (dshOf db uid),
          emitLog := (runDays db uid days rng env fuel pool).emitLog,
          dayLog := (runDays db uid days rng env fuel pool).dayLog }
      else
        { result := .success
            ("Generated " ++ toString (runDays db uid days rng env fuel pool).gen.length
              ++ " study tasks for the next " ++ toString days ++ " days")
            (runDays db uid days rng env fuel pool).gen
            (runDays db uid days rng env fuel pool).gen.length,
          finalTasks := (runDays db uid days rng env fuel pool).tasks,
          gen := (runDays db uid days rng env fuel pool).gen,
          dailyMinutes := resolveDailyMinutes (dshOf db uid),
          emitLog := (runDays db uid days rng env fuel pool).emitLog,
          dayLog := (runDays db uid days rng env fuel pool).dayLog }) := by
  simp only [generateSchedule, hrp]

theorem purgeTasks_append (a b : List TaskRow) (uid : Nat) (d : ℤ) :
    purgeTasks (a ++ b) uid d = purgeTasks a uid d ++ purgeTasks b uid d := by
  simp [purgeTasks]

theorem purgeTasks_idem (l : List TaskRow) (uid : Nat) (d : ℤ) :
    purgeTasks (purgeTasks l uid d) uid d = purgeTasks l uid d :=
  List.filter_eq_self.mpr (fun _a ha => (List.mem_filter.mp ha).2)

/-- Claim C6 (amended): calling generateSchedule twice in succession with
no intervening state change and the same draw stream yields the identical
outcome (hence the same task count and date distribution) PROVIDED the
first run placed no task on today itself: the purge removes exactly the
first run's future-dated auto-tasks, but a task generated for today
survives the purge and shrinks the second run's day-0 budget. -/
theorem regenerate_idempotent_when_first_run_all_future
    (db : DB) (uid days fuel : Nat) (rng : Nat → ℚ) (env : Env)
    (h : ∀ r ∈ (generateSchedule db uid days rng env fuel).gen,
      env.todayDay < r.scheduled_date) :
    generateSchedule
        { db with tasks := (generateSchedule db uid days rng env fuel).finalTasks }
        uid days rng env fuel
      = generateSchedule db uid days rng env fuel := by
  rcases hrp : resolvePool db uid env with m | pool
  · have h1 := generateSchedule_inl db uid days fuel rng env m hrp
    rw [h1]
    show generateSchedule db uid days rng env fuel = _
    exact h1
  · obtain ⟨hft, hgen, _, _, _⟩ := generateSchedule_inr_proj db uid days fuel rng env pool hrp
    obtain ⟨Δ, hT, hG, hfields⟩ := dayLoop_tasks uid rng env.todayDay
      (resolveDailyMinutes (dshOf db uid)) fuel (List.range days) (initState db uid env pool)
    have hG' : (runDays db uid days rng env fuel pool).gen = Δ := by
      have : (initState db uid env pool).gen = [] := rfl
      rw [runDays] at *
      rw [hG, this]
      simp
    have hT' : (runDays db uid days rng env fuel pool).tasks
        = purgeTasks db.tasks uid env.todayDay ++ Δ := by
      have : (initState db uid env pool).tasks = purgeTasks db.tasks uid env.todayDay := rfl
      rw [runDays] at *
      rw [hT, this]
    have hpu : purgeTasks ((generateSchedule db uid days rng env fuel).finalTasks)
        uid env.todayDay = purgeTasks db.tasks uid env.todayDay := by
      rw [hft, hT', purgeTasks_append, purgeTasks_idem]
      have hnil : purgeTasks Δ uid env.todayDay = [] := by
        apply List.filter_eq_nil_iff.mpr
        intro r hr
        obtain ⟨hu, hs, hty⟩ := hfields r hr
        have hdate : env.todayDay < r.scheduled_date := by
          apply h
          rw [hgen, hG']
          exact hr
        simp [purgeKeep, hu, hs, hty, hdate]
      rw [hnil, List.append_nil]
    have hrp1 : resolvePool
        { db with tasks := (generateSchedule db uid days rng env fuel).finalTasks }
        uid env = Sum.inr pool := hrp
    have hrun : runDays
        { db with tasks := (generateSchedule db uid days rng env fuel).finalTasks }
        uid days rng env fuel pool = runDays db uid days rng env fuel pool := by
      rw [runDays, runDays, initState, initState]
      rw [show ({ db with
        tasks := (generateSchedule db uid days rng env fuel).finalTasks } : DB).tasks
        = (generateSchedule db uid days rng env fuel).finalTasks from rfl]
      rw [hpu]
      rfl
    have hdsh : dshOf
        { db with tasks := (generateSchedule db uid days rng env fuel).finalTasks } uid
        = dshOf db uid := rfl
    rw [generateSchedule_inr_eq
        { db with tasks := (generateSchedule db uid days rng env fuel).finalTasks }
        uid days fuel rng env pool hrp1, hrun, hdsh,
      generateSchedule_inr_eq db uid days fuel rng env pool hrp]

def cdb6w : DB :=
  { subjects := [
      { id := 1, user_id := 1, name := "S", priority_level := 3,
        exam_date := none, is_archived := false }],
    topics := [
      { id := 1, subject_id := 1, name := "T", difficulty := .medium,
        importance := 3, estimated_hours := 1, is_completed := false, updated_at := 0 }],
    sessions := [], users := [{ id := 1, daily_study_hours := 1/2 }],
    tasks := [
      { id := 7, user_id := 1, topic_id := none, title := "Manual",
        description := "", task_type := "manual", scheduled_date := 0,
        estimated_minutes := 300, priority := 3, priority_score := 0, status := "pending" }],
    progress := [], stats := [] }

unseal Rat.mul Rat.add Rat.sub Rat.inv in
/-- Witness for regenerate_idempotent_when_first_run_all_future on cdb6w,
whose day 0 is blocked by a 300-minute manual task. -/
theorem regenerate_idempotent_when_first_run_all_future_witness :
    (∀ r ∈ (generateSchedule cdb6w 1 2 rngZero envZero 100).gen,
      envZero.todayDay < r.scheduled_date) ∧
    generateSchedule
        { cdb6w with tasks := (generateSchedule cdb6w 1 2 rngZero envZero 100).finalTasks }
        1 2 rngZero envZero 100
      = generateSchedule cdb6w 1 2 rngZero envZero 100 :=
  ⟨by decide,
    regenerate_idempotent_when_first_run_all_future cdb6w 1 2 100 rngZero envZero (by decide)⟩

end SmartSched

namespace SmartSched

/-- Claim C7: a not-completed hard topic of importance 5 with no
performance data, under a subject of priority_level 5 whose exam is exactly
2 days away, scores exactly 104 = 15 (subject) + 6 (difficulty) + 50
(urgency) + 15 (near-exam bonus) + 10 (topic importance) + 8
(never studied). -/
theorem scenario_a_scores_104 (todayTs ed : ℚ) (hed : ed - todayTs = 2 * msPerDay) :
    calculateTopicPriority
        { difficulty := .hard, importance := 5, is_completed := false }
        { priority_level := 5, exam_date := some ed } none todayTs = 104 := by
  rw [calculateTopicPriority]
  rw [show examUrgency (some ed) todayTs
      = (min 10 ((30 : ℚ) / ((max 1 (Int.ceil ((ed - todayTs) / msPerDay)) : ℤ) : ℚ))) * 5
        + (if (max 1 (Int.ceil ((ed - todayTs) / msPerDay)) : ℤ) ≤ 3 then 15 else 0)
    from rfl]
  rw [hed]
  norm_num [msPerDay, difficultyScore, performanceBoost, spacedRepBoost, jsRound]

unseal Rat.mul Rat.add Rat.sub Rat.inv in
/-- Witness for scenario_a_scores_104 at today = 0, exam = 2 days in
milliseconds. -/
theorem scenario_a_scores_104_witness :
    ((2 * msPerDay : ℚ) - 0 = 2 * msPerDay) ∧
    calculateTopicPriority
        { difficulty := .hard, importance := 5, is_completed := false }
        { priority_level := 5, exam_date := some (2 * msPerDay) } none 0 = 104 :=
  ⟨by ring, scenario_a_scores_104 0 (2 * msPerDay) (by ring)⟩

/-- Claim C5 (amended): holding every other input fixed, a topic with no
performance data or a zero session count receives the same performance-term
contribution (+8) as a topic whose avg_score is BELOW 40; a topic with
avg_score in [40,60) receives +5. -/
theorem never_studied_matches_below40 (p q r : Perf)
    (hpc : 0 < p.session_count) (hp40 : p.avg_score < 40)
    (hqc : q.session_count = 0)
    (hrc : 0 < r.session_count) (hr40 : 40 ≤ r.avg_score) (hr60 : r.avg_score < 60) :
    performanceBoost (some p) = performanceBoost none ∧
    performanceBoost (some q) = performanceBoost none ∧
    performanceBoost none = 8 ∧
    performanceBoost (some r) = 5 := by
  refine ⟨?_, ?_, rfl, ?_⟩
  · simp [performanceBoost, hpc, hp40]
  · simp [performanceBoost, hqc]
  · have : ¬ r.avg_score < 40 := by linarith
    simp [performanceBoost, hrc, this, hr60]

unseal Rat.mul Rat.add Rat.sub Rat.inv in
/-- Witness for never_studied_matches_below40 at avg scores 30, 50 and
session counts 1, 0, 1. -/
theorem never_studied_matches_below40_witness :
    (0 < (1 : Nat) ∧ (30 : ℚ) < 40 ∧ (0 : Nat) = 0 ∧ 0 < (1 : Nat)
      ∧ (40 : ℚ) ≤ 50 ∧ (50 : ℚ) < 60) ∧
    (performanceBoost (some ⟨30, 1, none, 0⟩) = performanceBoost none ∧
      performanceBoost (some ⟨50, 0, none, 0⟩) = performanceBoost none ∧
      performanceBoost none = 8 ∧
      performanceBoost (some ⟨50, 1, none, 0⟩) = 5) :=
  ⟨by decide,
    never_studied_matches_below40 ⟨30, 1, none, 0⟩ ⟨50, 0, none, 0⟩ ⟨50, 1, none, 0⟩
      (by decide) (by decide) (by decide) (by decide) (by decide) (by decide)⟩

end SmartSched

namespace SmartSched

/-- Claim C8: when skipTask succeeds on an owned task (the lookup joins the
topics table, and the task priority column is 1-5 by database constraint,
hence the 1 <= priority hypothesis), the task status becomes skipped and
exactly one new pending task is appended whose title is the original title
prefixed with "[Rescheduled] ", whose priority_score is exactly the
original plus 5, and whose priority is exactly min(5, original + 1). -/
theorem skipTask_bumps_priority (db : DB) (uid tid : Nat) (reason : String) (env : Env)
    (task : TaskRow) (k : Nat)
    (hfind : db.tasks.find? (fun r => r.id == tid && r.user_id == uid) = some task)
    (htp : task.topic_id = some k)
    (htop : (db.topics.find? (fun t => t.id == k)).isSome = true)
    (hpr : 1 ≤ task.priority) :
    skipTask db uid tid reason env = .ok
      ({ success := true,
         message := "Task skipped and rescheduled to " ++ toString (nextFreeDate
           (db.tasks.map (fun r => if r.id == tid then { r with status := "skipped" } else r))
           uid env.todayDay) },
       { db with tasks :=
          (db.tasks.map (fun r => if r.id == tid then { r with status := "skipped" } else r))
          ++ [{ id := 0, user_id := uid, topic_id := task.topic_id,
                title := "[Rescheduled] " ++ task.title,
                description := "Rescheduled from " ++ toString task.scheduled_date ++ ". "
                  ++ (if reason == "" then "" else "Reason: " ++ reason),
                task_type := task.task_type,
                scheduled_date := nextFreeDate
                  (db.tasks.map (fun r =>
                    if r.id == tid then { r with status := "skipped" } else r))
                  uid env.todayDay,
                estimated_minutes := task.estimated_minutes,
                priority := min 5 (task.priority + 1),
                priority_score := task.priority_score + 5,
                status := "pending" }] }) := by
  have h0 : ¬ task.priority = 0 := by omega
  have hps : (if task.priority_score = 0 then 0 else task.priority_score)
      = task.priority_score := by
    by_cases hq : task.priority_score = 0
    · rw [if_pos hq, hq]
    · rw [if_neg hq]
  rw [skipTask, hfind]
  simp only [htp, htop, if_neg h0, hps, if_true, reduceIte]

end SmartSched

namespace SmartSched

def cdb8task : TaskRow :=
  { id := 1, user_id := 1, topic_id := some 1, title := "T1",
    description := "", task_type := "study", scheduled_date := 0,
    estimated_minutes := 30, priority := 3, priority_score := 10, status := "pending" }

def cdb8 : DB :=
  { subjects := [
      { id := 1, user_id := 1, name := "S", priority_level := 3,
        exam_date := none, is_archived := false }],
    topics := [
      { id := 1, subject_id := 1, name := "T", difficulty := .medium,
        importance := 3, estimated_hours := 2, is_completed := false, updated_at := 0 }],
    sessions := [], users := [], tasks := [cdb8task], progress := [], stats := [] }

unseal Rat.mul Rat.add Rat.sub Rat.inv in
/-- Witness for skipTask_bumps_priority on cdb8. -/
theorem skipTask_bumps_priority_witness :
    (cdb8.tasks.find? (fun r => r.id == 1 && r.user_id == 1) = some cdb8task ∧
      cdb8task.topic_id = some 1 ∧
      (cdb8.topics.find? (fun t => t.id == 1)).isSome = true ∧
      1 ≤ cdb8task.priority) ∧
    skipTask cdb8 1 1 "" envZero = .ok
      ({ success := true,
         message := "Task skipped and rescheduled to " ++ toString (nextFreeDate
           (cdb8.tasks.map (fun r => if r.id == 1 then { r with status := "skipped" } else r))
           1 envZero.todayDay) },
       { cdb8 with tasks :=
          (cdb8.tasks.map (fun r => if r.id == 1 then { r with status := "skipped" } else r))
          ++ [{ id := 0, user_id := 1, topic_id := cdb8task.topic_id,
                title := "[Rescheduled] " ++ cdb8task.title,
                description := "Rescheduled from " ++ toString cdb8task.scheduled_date ++ ". "
                  ++ (if ("" : String) == "" then "" else "Reason: " ++ ""),
                task_type := cdb8task.task_type,
                scheduled_date := nextFreeDate
                  (cdb8.tasks.map (fun r =>
                    if r.id == 1 then { r with status := "skipped" } else r))
                  1 envZero.todayDay,
                estimated_minutes := cdb8task.estimated_minutes,
                priority := min 5 (cdb8task.priority + 1),
                priority_score := cdb8task.priority_score + 5,
                status := "pending" }] }) :=
  ⟨⟨by decide, by decide, by decide, by decide⟩,
    skipTask_bumps_priority cdb8 1 1 "" envZero cdb8task 1
      (by decide) (by decide) (by decide) (by decide)⟩

/-- Claim C9 (amended): for an owned task, completeTask returns the
success result whenever the progress-record append succeeds - the
daily-stats rollup failure (sOk arbitrary) is swallowed and never fails the
parent - but when the task references a topic and the progress append
fails, completeTask propagates the failure instead of returning success. -/
theorem completion_error_propagation (db : DB) (uid tid : Nat) (env : Env) (sOk : Bool)
    (task : TaskRow)
    (hfind : db.tasks.find? (fun r => r.id == tid && r.user_id == uid) = some task) :
    (∃ db2, completeTask db uid tid true sOk env
      = .ok ({ success := true, message := "Task completed successfully" }, db2)) ∧
    (∀ k, task.topic_id = some k →
      completeTask db uid tid false sOk env = .error "progress log insert failed") := by
  constructor
  · rw [completeTask, hfind]
    rcases htp : task.topic_id with _ | k
    · simp only [htp]
      exact ⟨_, rfl⟩
    · simp only [htp]
      exact ⟨_, rfl⟩
  · intro k htp
    rw [completeTask, hfind]
    simp only [htp, reduceIte, Bool.false_eq_true, if_false]

def cdb9btask : TaskRow :=
  { id := 2, user_id := 1, topic_id := some 1, title := "T2",
    description := "", task_type := "study", scheduled_date := 0,
    estimated_minutes := 30, priority := 3, priority_score := 10, status := "pending" }

def cdb9b : DB :=
  { subjects := [
      { id := 1, user_id := 1, name := "S", priority_level := 3,
        exam_date := none, is_archived := false }],
    topics := [
      { id := 1, subject_id := 1, name := "T", difficulty := .medium,
        importance := 3, estimated_hours := 2, is_completed := false, updated_at := 0 }],
    sessions := [], users := [],
    tasks := [cdb9btask], progress := [], stats := [] }

unseal Rat.mul Rat.add Rat.sub Rat.inv in
/-- Witness for completion_error_propagation on cdb9b. -/
theorem completion_error_propagation_witness :
    (cdb9b.tasks.find? (fun r => r.id == 2 && r.user_id == 1) = some cdb9btask) ∧
    ((∃ db2, completeTask cdb9b 1 2 true true envZero
        = .ok ({ success := true, message := "Task completed successfully" }, db2)) ∧
      (∀ k, cdb9btask.topic_id = some k →
        completeTask cdb9b 1 2 false true envZero = .error "progress log insert failed")) :=
  ⟨by decide,
    completion_error_propagation cdb9b 1 2 envZero true cdb9btask (by decide)⟩

/-- Claim C10: for an existing task owned by the requesting learner whose
topic_id is null, skipTask (whose ownership query inner-joins the topics
table) returns the not-found result and leaves the database unchanged,
while completeTask (a plain lookup without the join) passes the ownership
check and completes the task successfully. -/
theorem null_topic_skip_vs_complete (db : DB) (uid tid : Nat) (reason : String)
    (env : Env) (pOk sOk : Bool) (task : TaskRow)
    (hfind : db.tasks.find? (fun r => r.id == tid && r.user_id == uid) = some task)
    (htp : task.topic_id = none) :
    skipTask db uid tid reason env
      = .ok ({ success := false, message := "Task not found" }, db) ∧
    (∃ db2, completeTask db uid tid pOk sOk env
      = .ok ({ success := true, message := "Task completed successfully" }, db2)) := by
  constructor
  · rw [skipTask, hfind]
    simp only [htp]
  · rw [completeTask, hfind]
    simp only [htp]
    exact ⟨_, rfl⟩

def cdb10task : TaskRow :=
  { id := 3, user_id := 1, topic_id := none, title := "M",
    description := "", task_type := "manual", scheduled_date := 0,
    estimated_minutes := 30, priority := 3, priority_score := 10, status := "pending" }

def cdb10 : DB :=
  { subjects := [], topics := [], sessions := [], users := [],
    tasks := [cdb10task], progress := [], stats := [] }

unseal Rat.mul Rat.add Rat.sub Rat.inv in
/-- Witness for null_topic_skip_vs_complete on cdb10. -/
theorem null_topic_skip_vs_complete_witness :
    (cdb10.tasks.find? (fun r => r.id == 3 && r.user_id == 1) = some cdb10task ∧
      cdb10task.topic_id = none) ∧
    (skipTask cdb10 1 3 "busy" envZero
        = .ok ({ success := false, message := "Task not found" }, cdb10) ∧
      (∃ db2, completeTask cdb10 1 3 false false envZero
        = .ok ({ success := true, message := "Task completed successfully" }, db2))) :=
  ⟨⟨by decide, by decide⟩,
    null_topic_skip_vs_complete cdb10 1 3 "busy" envZero false false cdb10task
      (by decide) (by decide)⟩

end SmartSched

namespace SmartSched

theorem mem_insStable (lt : α → α → Bool) (x a : α) (l : List α) :
    a ∈ insStable lt x l ↔ a = x ∨ a ∈ l := by
  induction l with
  | nil => simp [insStable]
  | cons y ys ih =>
    rw [insStable]
    split
    · simp only [List.mem_cons, ih]
      tauto
    · simp [List.mem_cons]

theorem mem_sortStable (lt : α → α → Bool) (a : α) (l : List α) :
    a ∈ sortStable lt l ↔ a ∈ l := by
  induction l with
  | nil => simp [sortStable]
  | cons x xs ih =>
    rw [sortStable, mem_insStable]
    simp [ih]

theorem getPrioritizedTopics_not_completed (db : DB) (uid : Nat) (env : Env)
    (t : PTopic) (ht : t ∈ getPrioritizedTopics db uid env) :
    t.is_completed = false := by
  rw [getPrioritizedTopics, mem_sortStable] at ht
  obtain ⟨j, hj, rfl⟩ := List.mem_map.mp ht
  rw [mem_sortStable, eligibleRows] at hj
  obtain ⟨tr, _, hf⟩ := List.mem_filterMap.mp hj
  rcases hfind : db.subjects.find? (fun s => s.id == tr.subject_id) with _ | s
  · rw [hfind] at hf
    have hf2 : (none : Option JoinRow) = some j := hf
    cases hf2
  · rw [hfind] at hf
    have hf2 : (if (s.user_id == uid && !s.is_archived && !tr.is_completed) = true then
        some ({ t := tr, subj_priority := s.priority_level, exam_date := s.exam_date,
                subject_name := s.name } : JoinRow)
        else none) = some j := hf
    by_cases hc : (s.user_id == uid && !s.is_archived && !tr.is_completed) = true
    · rw [if_pos hc] at hf2
      injection hf2 with h2
      subst h2
      have hcc : tr.is_completed = false := by
        rcases Bool.and_eq_true_iff.mp hc with ⟨_, h3⟩
        simpa using h3
      simpa [toPTopic] using hcc
    · rw [if_neg hc] at hf2
      cases hf2

theorem revision_fallback_unreachable (db : DB) (uid : Nat) (env : Env) :
    resolvePool db uid env = Sum.inl msgNoTopics ∨
    resolvePool db uid env = Sum.inl msgNoSubjects ∨
    resolvePool db uid env = Sum.inr (getPrioritizedTopics db uid env) := by
  rw [resolvePool]
  by_cases hp : (getPrioritizedTopics db uid env).isEmpty
  · rw [if_pos hp]
    by_cases hs : 0 < (db.subjects.filter (fun s => s.user_id == uid && !s.is_archived)).length
    · rw [if_pos hs]; left; rfl
    · rw [if_neg hs]; right; left; rfl
  · rw [if_neg hp]
    have hfil : (getPrioritizedTopics db uid env).filter (fun t => !t.is_completed)
        = getPrioritizedTopics db uid env :=
      List.filter_eq_self.mpr (fun t ht => by
        rw [getPrioritizedTopics_not_completed db uid env t ht]; rfl)
    rw [hfil, if_neg hp]
    right; right; rfl

end SmartSched
